import Mathlib

/-!
Shallow embedding of the core trading logic of the kraken-trading-bot
repository, together with proofs about the spec's claims.

Money and prices are modelled as rationals (`ℚ`), which matches the exact
arithmetic of the Python source on the inputs considered (no rounding is
performed by the modelled code paths).  Fallible operations are modelled
with `Option`; exchange interactions are passed in explicitly as data.

Namespaces mirror the source modules:
* `RiskCalc`  — src/risk_calculator.py (`RiskCalculator`)
* `Engine`    — src/trading_engine.py (`TradingEngine`)
* `Kraken`    — src/kraken_client.py (`KrakenClient`)
-/

namespace RiskCalc

/-- Configuration of `RiskCalculator.__init__`, with the source's default
values for each `config.get(...)` call. -/
structure Config where
  max_position_size : ℚ := 2500
  min_position_size : ℚ := 50
  max_total_exposure : ℚ := 10000
  max_daily_loss : ℚ := 500
  base_risk_per_trade : ℚ := 2/100
deriving DecidableEq

/-- The mutable performance-tracking state of `RiskCalculator`
(`current_drawdown`, `peak_balance`, `daily_pnl`, streaks). -/
structure RiskState where
  current_drawdown : ℚ
  peak_balance : ℚ
  daily_pnl : ℚ
  consecutive_losses : ℕ
  consecutive_wins : ℕ
deriving DecidableEq

/-- `RiskCalculator._get_confidence_multiplier`. -/
def get_confidence_multiplier (confidence : ℚ) : ℚ :=
  if confidence < 5/10 then 0
  else if confidence < 6/10 then 5/10
  else if confidence < 7/10 then 8/10
  else if confidence < 8/10 then 1
  else if confidence < 9/10 then 13/10
  else if confidence < 95/100 then 16/10
  else 2

/-- `RiskCalculator._get_volatility_multiplier`: a dictionary lookup keyed
by the strings `LOW_VOLATILITY` / `MEDIUM_VOLATILITY` / `HIGH_VOLATILITY` /
`UNKNOWN`, with `0.8` as the `.get` fallback for any other string. -/
def get_volatility_multiplier (regime : String) : ℚ :=
  if regime = "LOW_VOLATILITY" then 12/10
  else if regime = "MEDIUM_VOLATILITY" then 1
  else if regime = "HIGH_VOLATILITY" then 6/10
  else if regime = "UNKNOWN" then 8/10
  else 8/10

/-- `RiskCalculator._get_drawdown_multiplier` (reads `self.current_drawdown`,
passed here explicitly). -/
def get_drawdown_multiplier (current_drawdown : ℚ) : ℚ :=
  if current_drawdown < 5/100 then 1
  else if current_drawdown < 10/100 then 9/10
  else if current_drawdown < 15/100 then 7/10
  else if current_drawdown < 20/100 then 5/10
  else 3/10

/-- `RiskCalculator._calculate_kelly_multiplier`. -/
def calculate_kelly_multiplier (win_rate risk_reward : ℚ) : ℚ :=
  if win_rate ≤ 0 ∨ 1 ≤ win_rate then 1
  else
    let loss_rate := 1 - win_rate
    let kelly_percent := (win_rate * risk_reward - loss_rate) / risk_reward
    let fractional_kelly := kelly_percent * (25/100)
    max (5/10) (min (15/10) (1 + fractional_kelly))

/-- `RiskCalculator.calculate_position_size`.  The instance state it reads
(`self.current_drawdown` and the configured limits) is passed explicitly. -/
def calculate_position_size (cfg : Config) (current_drawdown : ℚ)
    (account_balance signal_confidence : ℚ) (volatility_regime : String)
    (current_exposure : ℚ) (strategy_win_rate : Option ℚ) (risk_reward : ℚ) : ℚ :=
  let base_size := account_balance * cfg.base_risk_per_trade
  let size := base_size * get_confidence_multiplier signal_confidence
  let size := size * get_volatility_multiplier volatility_regime
  let size := size * get_drawdown_multiplier current_drawdown
  let size :=
    match strategy_win_rate with
    | some wr => size * calculate_kelly_multiplier wr risk_reward
    | none => size
  let remaining_exposure := cfg.max_total_exposure - current_exposure
  let size := min size remaining_exposure
  max cfg.min_position_size (min size cfg.max_position_size)

/-- `RiskCalculator.should_stop_trading`. -/
def should_stop_trading (cfg : Config) (st : RiskState) : Bool × String :=
  if cfg.max_daily_loss ≤ |st.daily_pnl| then (true, "Daily loss limit reached")
  else if 20/100 ≤ st.current_drawdown then (true, "Maximum drawdown reached")
  else if 5 ≤ st.consecutive_losses then (true, "Too many consecutive losses")
  else (false, "")

/-- `RiskCalculator.update_drawdown`.  The Python body divides by
`self.peak_balance` with no guard, so the call raises `ZeroDivisionError`
when the else-branch is reached with `peak_balance = 0`; that failure is
modelled as `none`. -/
def update_drawdown (st : RiskState) (current_balance : ℚ) : Option RiskState :=
  if st.peak_balance < current_balance then
    some { st with peak_balance := current_balance, current_drawdown := 0 }
  else if st.peak_balance = 0 then none
  else
    some { st with
      current_drawdown := (st.peak_balance - current_balance) / st.peak_balance }

end RiskCalc

namespace Engine

/-- Outcome of the advisory (DeepSeek ensemble) call made by
`_check_buy_signal` / `_check_sell_signal`: either a result dictionary with
a signal string and a confidence, or an exception (network error, timeout). -/
inductive AIOutcome
  | ok (signal : String) (confidence : ℚ)
  | err
deriving DecidableEq

/-- Exit reasons used by `_check_sell_signal`. -/
inductive SellReason
  | STOP_LOSS
  | TAKE_PROFIT
  | PROFIT_PROTECTION
  | STRATEGY
deriving DecidableEq

/-- What `_check_sell_signal` decides to do. -/
inductive SellAction
  | exec (reason : SellReason)
  | hold
deriving DecidableEq

/-- Result of one `_check_sell_signal` evaluation: the action taken and
whether the AI ensemble was consulted on the way. -/
structure SellCheck where
  action : SellAction
  ai_consulted : Bool
deriving DecidableEq

/-- The P&L percentage `((current - entry) / entry) * 100` computed at the
top of `_check_sell_signal` and `_check_positions`. -/
def pnl_percent (entry_price current_price : ℚ) : ℚ :=
  (current_price - entry_price) / entry_price * 100

/-- `TradingEngine._check_sell_signal` (decision logic, lines 653-786).
Stop-loss is checked first and sells immediately; otherwise a sell reason is
determined (take-profit, profit protection at ≥ 2%, or a strategy SELL
signal) and the mandatory AI validation gate runs, with the
take-profit-only fallback when the AI call raises. -/
def check_sell_signal (ai_enabled : Bool) (ai : AIOutcome) (ai_min_confidence : ℚ)
    (stop_loss_percent take_profit_percent : ℚ) (entry_price current_price : ℚ)
    (strategy_sell_signal : Bool) : SellCheck :=
  let pnl := pnl_percent entry_price current_price
  if pnl ≤ -stop_loss_percent then
    ⟨SellAction.exec SellReason.STOP_LOSS, false⟩
  else
    let sell_reason : Option SellReason :=
      if take_profit_percent ≤ pnl then some SellReason.TAKE_PROFIT
      else if 2 ≤ pnl then some SellReason.PROFIT_PROTECTION
      else if strategy_sell_signal then some SellReason.STRATEGY
      else none
    match sell_reason with
    | none => ⟨SellAction.hold, false⟩
    | some reason =>
      if ¬ai_enabled then ⟨SellAction.hold, false⟩
      else
        match ai with
        | AIOutcome.ok sig conf =>
          if sig = "SELL" ∧ ai_min_confidence ≤ conf then ⟨SellAction.exec reason, true⟩
          else ⟨SellAction.hold, true⟩
        | AIOutcome.err =>
          if reason = SellReason.TAKE_PROFIT ∧ take_profit_percent ≤ pnl then
            ⟨SellAction.exec reason, true⟩
          else ⟨SellAction.hold, true⟩

/-- Which branch `_process_pair` takes for one symbol in one tick:
`if symbol in self.positions: _check_sell_signal(...) else: _check_buy_signal(...)`. -/
inductive PairAction
  | sell_check_path
  | buy_check_path
deriving DecidableEq

/-- `TradingEngine._process_pair` branch selection (lines 465-495). -/
def process_pair (has_position : Bool) : PairAction :=
  if has_position then PairAction.sell_check_path else PairAction.buy_check_path

/-- What `_check_buy_signal` decides to do. -/
inductive BuyAction
  | execute_buy (investment : ℚ)
  | no_buy
deriving DecidableEq

/-- `TradingEngine._check_buy_signal` (decision logic, lines 497-651):
balance and investment floors, the strategy signal, and the mandatory AI
gate (disabled AI, a non-BUY AI verdict, a low-confidence verdict, or an AI
exception all discard the signal). -/
def check_buy_signal (ai_enabled : Bool) (ai : AIOutcome) (ai_min_confidence : ℚ)
    (usd_available allocation max_order_size : ℚ) (strategy_buy_signal : Bool) : BuyAction :=
  if usd_available < 1 then BuyAction.no_buy
  else
    let investment := min (usd_available * allocation / 100) max_order_size
    if investment < 1 then BuyAction.no_buy
    else if ¬strategy_buy_signal then BuyAction.no_buy
    else if ¬ai_enabled then BuyAction.no_buy
    else
      match ai with
      | AIOutcome.err => BuyAction.no_buy
      | AIOutcome.ok sig conf =>
        if ¬(sig = "BUY") then BuyAction.no_buy
        else if conf < ai_min_confidence then BuyAction.no_buy
        else BuyAction.execute_buy investment

/-- The Kraken minimum order value used by the engine
(`MIN_ORDER_VALUE = 1.0` in `_execute_buy` / `_execute_sell_with_retry`). -/
def MIN_ORDER_VALUE : ℚ := 1

/-- Outcome of the reconciliation block at the top of each
`_execute_sell_with_retry` attempt. -/
inductive ReconcileOutcome
  | sell_qty (q : ℚ)
  | removed_dust
  | removed_desync
  | use_tracked (q : ℚ)
deriving DecidableEq

/-- The balance-reconciliation step of `_execute_sell_with_retry`
(lines 1352-1401): fetch the base-asset free balance (`none` models the
fetch raising, in which case the tracked quantity is used); with a positive
balance, sell `min(tracked, actual)` (the `actual < tracked * 0.99` branch
also assigns `actual`), unless the resulting notional is below the $1
minimum (dust: remove without an order); with a zero balance, remove the
position and log the desynchronization. -/
def reconcile_before_sell (tracked_quantity price : ℚ) (fetched : Option ℚ) :
    ReconcileOutcome :=
  match fetched with
  | none => ReconcileOutcome.use_tracked tracked_quantity
  | some actual_quantity =>
    if 0 < actual_quantity then
      let q := min tracked_quantity actual_quantity
      let q := if actual_quantity < tracked_quantity * (99/100) then actual_quantity else q
      if q * price < MIN_ORDER_VALUE then ReconcileOutcome.removed_dust
      else ReconcileOutcome.sell_qty q
    else ReconcileOutcome.removed_desync

/-- A tracked position as far as the sell path needs it. -/
structure Position where
  entry_price : ℚ
  quantity : ℚ
deriving DecidableEq

/-- Exchange behaviour during one sell attempt: the base-asset free balance
returned by `fetch_balance` (`none` = the fetch raises), whether
`create_market_sell_order` succeeds, and the price returned by the
`fetch_ticker` retry refresh (`none` = the refresh raises). -/
structure SellEnv where
  balance : Option ℚ
  order_ok : Bool
  new_price : Option ℚ

/-- Engine state touched by `_execute_sell_with_retry`: the tracked
position for the symbol, the quantities of appended SELL trade records, the
number of times the critical retries-exhausted alert block ran, and the
backoff sleeps performed (seconds, in order). -/
structure SellExecState where
  position : Option Position
  trade_quantities : List ℚ
  fatal_alerts : ℕ
  backoffs : List ℕ
deriving DecidableEq

/-- The retry loop of `TradingEngine._execute_sell_with_retry`
(lines 1337-1493), indexed by the current attempt number and the number of
attempts remaining.  A successful order removes the position and appends a
trade record; a failed attempt sleeps `(attempt + 1) * 3` seconds and
refreshes the price before retrying, except on the last attempt, where the
critical alert block runs and the position is left untouched. -/
def sell_attempts (env : ℕ → SellEnv) : ℕ → ℕ → ℚ → SellExecState → SellExecState
  | _, 0, _, st => st
  | attempt, remaining + 1, price, st =>
    match st.position with
    | none => st
    | some pos =>
      let e := env attempt
      match reconcile_before_sell pos.quantity price e.balance with
      | ReconcileOutcome.removed_dust => { st with position := none }
      | ReconcileOutcome.removed_desync => { st with position := none }
      | ReconcileOutcome.sell_qty q | ReconcileOutcome.use_tracked q =>
        if e.order_ok then
          { st with position := none, trade_quantities := st.trade_quantities ++ [q] }
        else if remaining = 0 then
          { st with fatal_alerts := st.fatal_alerts + 1 }
        else
          sell_attempts env (attempt + 1) remaining (e.new_price.getD price)
            { st with backoffs := st.backoffs ++ [(attempt + 1) * 3] }

/-- `TradingEngine._execute_sell_with_retry` (its `max_retries` parameter
defaults to 5 in the source). -/
def execute_sell_with_retry (env : ℕ → SellEnv) (price : ℚ) (st : SellExecState)
    (max_retries : ℕ) : SellExecState :=
  sell_attempts env 0 max_retries price st

/-- `TradingEngine._execute_sell`: the wrapper that fixes `max_retries = 3`. -/
def execute_sell (env : ℕ → SellEnv) (price : ℚ) (st : SellExecState) : SellExecState :=
  execute_sell_with_retry env price st 3

/-- The `highest_price` update of `_check_positions` (lines 1579-1584):
raised only when the current price exceeds it. -/
def update_highest_price (highest_price current_price : ℚ) : ℚ :=
  if highest_price < current_price then current_price else highest_price

/-- The trailing-stop computation inside the
`if strategy == 'macd_supertrend':` block of `_check_positions`
(lines 1586-1599): the percentage stop from entry, raised to
`highest_price * 0.97` once the profit of the highest price over entry has
reached the 5% activation threshold (the source also guards
`trailing_stop_price > entry_price`). -/
def trailing_effective_stop (entry_price stop_loss_percent highest_price : ℚ) : ℚ :=
  let stop_loss_price := entry_price * (1 - stop_loss_percent / 100)
  let profit_from_entry := (highest_price - entry_price) / entry_price * 100
  if 5 ≤ profit_from_entry then
    let trailing_stop_price := highest_price * (97/100)
    if entry_price < trailing_stop_price then max stop_loss_price trailing_stop_price
    else stop_loss_price
  else stop_loss_price

/-- The stop level `_check_positions` compares the current price against at
line 1605 (lines 1572-1599): the whole trailing block — including the
`highest_price` update — is gated on the position's strategy being
`macd_supertrend` (line 1577); every other strategy keeps the plain
percentage stop `entry * (1 - stop_loss_percent / 100)`. -/
def effective_stop_loss_price (strategy : String)
    (entry_price stop_loss_percent highest_price : ℚ) : ℚ :=
  if strategy = "macd_supertrend" then
    trailing_effective_stop entry_price stop_loss_percent highest_price
  else entry_price * (1 - stop_loss_percent / 100)

/-- The volatility-regime classification of
`TradingEngine._calculate_volatility_metrics` (lines 1809-1815): the regime
string produced from the ATR percentage. -/
def volatility_regime_of_atr (atr_percent : ℚ) : String :=
  if 5 < atr_percent then "HIGH"
  else if atr_percent < 2 then "LOW"
  else "NORMAL"

end Engine

namespace Kraken

/-- Order side. -/
inductive Side
  | BUY
  | SELL
deriving DecidableEq

/-- Order type (the paper path distinguishes only MARKET from the rest). -/
inductive OrderType
  | MARKET
  | LIMIT
deriving DecidableEq

/-- The in-memory paper balance ledger, restricted to the USD entry and the
base-asset entry of the traded symbol (absent key = 0). -/
structure PaperLedger where
  usd : ℚ
  base : ℚ
deriving DecidableEq

/-- The order dictionary returned by `_place_paper_order`. -/
structure PaperOrder where
  side : Side
  order_type : OrderType
  amount : ℚ
  price : ℚ
  status : String
deriving DecidableEq

/-- The balance update of `_place_paper_order` (lines 632-647): a MARKET
order moves the ledger only when the spending balance covers the trade;
otherwise the ledger is left unchanged. -/
def fill_paper_balance (side : Side) (order_type : OrderType) (amount price : ℚ)
    (l : PaperLedger) : PaperLedger :=
  if order_type = OrderType.MARKET then
    let cost := amount * price
    match side with
    | Side.BUY =>
      if cost ≤ l.usd then { usd := l.usd - cost, base := l.base + amount } else l
    | Side.SELL =>
      if amount ≤ l.base then { usd := l.usd + cost, base := l.base - amount } else l
  else l

/-- `KrakenClient._place_paper_order` (lines 613-652): build the order
record (status `filled` for MARKET, `open` otherwise) and apply the ledger
update. -/
def place_paper_order (side : Side) (order_type : OrderType) (amount price : ℚ)
    (l : PaperLedger) : PaperOrder × PaperLedger :=
  (⟨side, order_type, amount, price,
      if order_type = OrderType.MARKET then "filled" else "open"⟩,
   fill_paper_balance side order_type amount price l)

/-- Result of `KrakenClient.place_order`: the minimum-size `ValueError`, a
paper fill, or a live submission to the exchange. -/
inductive PlaceResult
  | rejected
  | paper_filled (order : PaperOrder) (ledger : PaperLedger)
  | live_submitted
deriving DecidableEq

/-- The `price or self._get_current_price(symbol)` idiom: `None` and `0`
are falsy, so both fall back to the fetched current price. -/
def resolve_price (price : Option ℚ) (current_price : ℚ) : ℚ :=
  match price with
  | none => current_price
  | some p => if p = 0 then current_price else p

/-- `KrakenClient.place_order` (lines 358-419): the minimum-order-value
validation runs before the paper/live branch, so it applies identically in
both modes. -/
def place_order (paper_trading : Bool) (min_order_size : ℚ) (side : Side)
    (order_type : OrderType) (amount : ℚ) (price : Option ℚ) (current_price : ℚ)
    (l : PaperLedger) : PlaceResult :=
  if amount * resolve_price price current_price < min_order_size then
    PlaceResult.rejected
  else if paper_trading then
    let po := place_paper_order side order_type amount (resolve_price price current_price) l
    PlaceResult.paper_filled po.1 po.2
  else PlaceResult.live_submitted

end Kraken

/-- Claim C1: stop-loss exits have highest priority and bypass the advisory
gate — whenever the P&L from entry is at or below minus the stop-loss
percentage, `_check_sell_signal` executes a SELL with reason STOP_LOSS
without consulting the AI validator, for every AI configuration and
regardless of take-profit or strategy-SELL conditions; and `_process_pair`
routes a tracked symbol to the sell check, so no BUY evaluation runs for it
in that tick. -/
theorem claim_C1_stop_loss_priority
    (ai_enabled : Bool) (ai : Engine.AIOutcome) (ai_min_confidence : ℚ)
    (stop_loss_percent take_profit_percent entry_price current_price : ℚ)
    (strategy_sell_signal : Bool)
    (h : Engine.pnl_percent entry_price current_price ≤ -stop_loss_percent) :
    Engine.check_sell_signal ai_enabled ai ai_min_confidence stop_loss_percent
        take_profit_percent entry_price current_price strategy_sell_signal =
      ⟨Engine.SellAction.exec Engine.SellReason.STOP_LOSS, false⟩ ∧
    Engine.process_pair true = Engine.PairAction.sell_check_path := by
  refine ⟨?_, rfl⟩
  simp only [Engine.check_sell_signal, if_pos h]

/-- Witness for C1 at the spec's scenario: entry $100, stop-loss 2%,
take-profit 3%, tick price $97.90, with the AI enabled and answering BUY at
90% confidence and a pending strategy SELL signal. -/
theorem claim_C1_stop_loss_priority_witness :
    Engine.check_sell_signal true (Engine.AIOutcome.ok "BUY" (9/10)) (65/100)
        2 3 100 (979/10) true =
      ⟨Engine.SellAction.exec Engine.SellReason.STOP_LOSS, false⟩ ∧
    Engine.process_pair true = Engine.PairAction.sell_check_path :=
  claim_C1_stop_loss_priority true (Engine.AIOutcome.ok "BUY" (9/10)) (65/100)
    2 3 100 (979/10) true (by norm_num [Engine.pnl_percent])

/-- Claim C4: fail-closed advisory gating of entries — for every strategy
BUY signal, if the AI validator is disabled or its call raises (timeout or
any error), `_check_buy_signal` submits no BUY order. -/
theorem claim_C4_fail_closed_buy
    (ai_enabled : Bool) (ai : Engine.AIOutcome) (ai_min_confidence : ℚ)
    (usd_available allocation max_order_size : ℚ) (strategy_buy_signal : Bool)
    (h : ai_enabled = false ∨ ai = Engine.AIOutcome.err) :
    Engine.check_buy_signal ai_enabled ai ai_min_confidence usd_available
      allocation max_order_size strategy_buy_signal = Engine.BuyAction.no_buy := by
  rcases h with h | h <;> subst h <;> simp [Engine.check_buy_signal]

/-- Witness for C4: an AI call that raises (e.g. times out) blocks a
pending strategy BUY signal despite ample balance. -/
theorem claim_C4_fail_closed_buy_witness :
    Engine.check_buy_signal true Engine.AIOutcome.err (65/100) 1000 10 100 true =
      Engine.BuyAction.no_buy :=
  claim_C4_fail_closed_buy true Engine.AIOutcome.err (65/100) 1000 10 100 true (Or.inr rfl)

/-- Counterexample to claim C6 as stated: take the default $500 daily cap
and a day at +$500 realized profit (so today's realized loss is −$500,
strictly below the cap), no drawdown, no loss streak.  The claim requires
`(false, "")`, but `should_stop_trading` tests `abs(daily_pnl)` and returns
`true` ("Daily loss limit reached") on this all-profit day. -/
theorem claim_C6_counterexample :
    ¬((500:ℚ) ≤ -500) ∧ ¬((20/100:ℚ) ≤ 0) ∧ ¬(5 ≤ (0:ℕ)) ∧
    RiskCalc.should_stop_trading {} ⟨0, 0, 500, 0, 0⟩ ≠ (false, "") := by
  refine ⟨by norm_num, by norm_num, by norm_num, ?_⟩
  simp [RiskCalc.should_stop_trading]

/-- Claim C6 (amended): `should_stop_trading` returns `true` exactly when
`|today's realized P&L| ≥ daily cap` (so a profit at the cap also halts),
or drawdown ≥ 20%, or consecutive losses ≥ 5, and returns `(false, "")`
otherwise; the trading loop of trading_engine.py never consults it — the
per-tick routing depends only on whether a position is tracked, so an
untracked enabled symbol proceeds to BUY evaluation regardless of the
circuit-breaker state. -/
theorem claim_C6_circuit_breaker_amended (cfg : RiskCalc.Config) (st : RiskCalc.RiskState) :
    ((RiskCalc.should_stop_trading cfg st).1 = true ↔
      (cfg.max_daily_loss ≤ |st.daily_pnl| ∨ 20/100 ≤ st.current_drawdown ∨
        5 ≤ st.consecutive_losses)) ∧
    ((RiskCalc.should_stop_trading cfg st).1 = false →
      RiskCalc.should_stop_trading cfg st = (false, "")) ∧
    Engine.process_pair false = Engine.PairAction.buy_check_path := by
  refine ⟨?_, ?_, rfl⟩ <;>
    · unfold RiskCalc.should_stop_trading
      split_ifs <;> simp_all

/-- Witness for C6 (amended): a day at exactly the default $500 cap of
realized loss trips the breaker. -/
theorem claim_C6_circuit_breaker_amended_witness :
    (RiskCalc.should_stop_trading {} ⟨0, 0, -500, 0, 0⟩).1 = true :=
  (claim_C6_circuit_breaker_amended {} ⟨0, 0, -500, 0, 0⟩).1.mpr
    (Or.inl (by norm_num))

/-- Claim C7 evaluated at its failing inputs: `calculate_position_size`
never returns 0 — the final `max(min_position_size, ...)` clamp bumps every
result up to $50 (the default minimum).  With confidence 0.40 (multiplier
0, "don't trade") it returns 50, not 0; and with only $5 of exposure
budget remaining it still returns 50, exceeding the remaining budget. -/
theorem claim_C7_code_bug :
    RiskCalc.calculate_position_size {} 0 10000 (4/10) "MEDIUM_VOLATILITY" 0 none 2 = 50 ∧
    (50:ℚ) ≠ 0 ∧
    RiskCalc.calculate_position_size {} 0 10000 (7/10) "MEDIUM_VOLATILITY" 9995 none 2 = 50 ∧
    (10000:ℚ) - 9995 < 50 := by
  refine ⟨?_, by norm_num, ?_, by norm_num⟩ <;>
    simp [RiskCalc.calculate_position_size, RiskCalc.get_confidence_multiplier,
      RiskCalc.get_volatility_multiplier, RiskCalc.get_drawdown_multiplier] <;>
    norm_num

/-- Claim C8 evaluated at its failing inputs: the volatility map is keyed
by `LOW_VOLATILITY` / `MEDIUM_VOLATILITY` / `HIGH_VOLATILITY`, but the
regime strings documented for `calculate_position_size` and produced by
`_calculate_volatility_metrics` are bare `LOW` / `NORMAL` / `HIGH`, so
every one of them falls through to the 0.8 fallback instead of the
documented 1.2 / 1.0 / 0.6. -/
theorem claim_C8_code_bug :
    RiskCalc.get_volatility_multiplier "LOW" = 8/10 ∧
    RiskCalc.get_volatility_multiplier "MEDIUM" = 8/10 ∧
    RiskCalc.get_volatility_multiplier "HIGH" = 8/10 ∧
    Engine.volatility_regime_of_atr 1 = "LOW" ∧
    RiskCalc.get_volatility_multiplier (Engine.volatility_regime_of_atr 1) = 8/10 ∧
    RiskCalc.get_volatility_multiplier "LOW_VOLATILITY" = 12/10 ∧
    RiskCalc.get_volatility_multiplier "MEDIUM_VOLATILITY" = 1 ∧
    RiskCalc.get_volatility_multiplier "HIGH_VOLATILITY" = 6/10 ∧
    RiskCalc.get_volatility_multiplier "UNKNOWN" = 8/10 := by
  simp [RiskCalc.get_volatility_multiplier, Engine.volatility_regime_of_atr]

/-- Claim C10: `update_drawdown` divides by `peak_balance` without a guard,
so with `peak_balance = 0` and `current_balance ≤ 0` it raises
(`none` here); once some call has set a positive peak and balances stay
nonnegative, every call is total, the peak is non-decreasing (and stays
positive), and the drawdown lies in [0, 1]. -/
theorem claim_C10_update_drawdown (st : RiskCalc.RiskState) (current_balance : ℚ) :
    (st.peak_balance = 0 → current_balance ≤ 0 →
      RiskCalc.update_drawdown st current_balance = none) ∧
    (0 < st.peak_balance → 0 ≤ current_balance →
      ∃ st2, RiskCalc.update_drawdown st current_balance = some st2 ∧
        st.peak_balance ≤ st2.peak_balance ∧ 0 < st2.peak_balance ∧
        0 ≤ st2.current_drawdown ∧ st2.current_drawdown ≤ 1) := by
  constructor
  · intro hp hc
    unfold RiskCalc.update_drawdown
    rw [if_neg (by rw [hp]; exact not_lt.mpr hc), if_pos hp]
  · intro hp hc
    unfold RiskCalc.update_drawdown
    by_cases hlt : st.peak_balance < current_balance
    · rw [if_pos hlt]
      exact ⟨_, rfl, le_of_lt hlt, lt_of_lt_of_le hp (le_of_lt hlt), le_refl 0, by norm_num⟩
    · rw [if_neg hlt, if_neg (ne_of_gt hp)]
      refine ⟨_, rfl, le_refl _, hp, ?_, ?_⟩
      · exact div_nonneg (by linarith [not_lt.mp hlt]) hp.le
      · rw [div_le_one hp]; linarith

/-- Witness for C10: the first call after construction with balance 0
raises, and a call with peak 100 and balance 50 is total with drawdown
in [0, 1]. -/
theorem claim_C10_update_drawdown_witness :
    RiskCalc.update_drawdown ⟨0, 0, 0, 0, 0⟩ 0 = none ∧
    ∃ st2, RiskCalc.update_drawdown ⟨0, 100, 0, 0, 0⟩ 50 = some st2 ∧
      (100:ℚ) ≤ st2.peak_balance ∧ 0 < st2.peak_balance ∧
      0 ≤ st2.current_drawdown ∧ st2.current_drawdown ≤ 1 :=
  ⟨(claim_C10_update_drawdown ⟨0, 0, 0, 0, 0⟩ 0).1 rfl le_rfl,
   (claim_C10_update_drawdown ⟨0, 100, 0, 0, 0⟩ 50).2 (by norm_num) (by norm_num)⟩

namespace Engine

/-- Under a positive fetched balance, the reconciled quantity is
`min tracked actual` (the `actual < tracked * 0.99` override is subsumed),
so reconciliation either flags dust or sells that minimum. -/
theorem reconcile_before_sell_pos (tracked actual price : ℚ) (h0 : 0 < actual) :
    reconcile_before_sell tracked price (some actual) =
      if min tracked actual * price < MIN_ORDER_VALUE then ReconcileOutcome.removed_dust
      else ReconcileOutcome.sell_qty (min tracked actual) := by
  have hov : (if actual < tracked * (99/100) then actual else min tracked actual) =
      min tracked actual := by
    by_cases hc : actual < tracked * (99/100)
    · have ht : 0 < tracked := by nlinarith
      have hle : actual ≤ tracked := by nlinarith
      rw [if_pos hc, min_eq_right hle]
    · rw [if_neg hc]
  simp only [reconcile_before_sell, if_pos h0, hov]

/-- When the exchange balance matches the tracked quantity and the notional
clears the minimum, reconciliation submits exactly the tracked quantity. -/
theorem reconcile_before_sell_self (q price : ℚ) (hq : 0 < q)
    (hmin : MIN_ORDER_VALUE ≤ q * price) :
    reconcile_before_sell q price (some q) = ReconcileOutcome.sell_qty q := by
  rw [reconcile_before_sell_pos q q price hq, min_self, if_neg (not_lt.mpr hmin)]

end Engine

/-- Claim C2: reconciliation before every SELL — with a positive fetched
free balance smaller than the tracked quantity, the SELL uses the smaller
quantity; if the reconciled notional is below the $1 minimum the position
is removed as dust (no order, no error); with a zero fetched balance the
position is removed as a desynchronization instead of selling; and in the
retry loop a dust/desync outcome removes the position without appending any
trade record. -/
theorem claim_C2_reconciliation (tracked actual price : ℚ) :
    (0 < actual → actual < tracked → Engine.MIN_ORDER_VALUE ≤ actual * price →
      Engine.reconcile_before_sell tracked price (some actual) =
        Engine.ReconcileOutcome.sell_qty actual) ∧
    (0 < actual → min tracked actual * price < Engine.MIN_ORDER_VALUE →
      Engine.reconcile_before_sell tracked price (some actual) =
        Engine.ReconcileOutcome.removed_dust) ∧
    (Engine.reconcile_before_sell tracked price (some 0) =
      Engine.ReconcileOutcome.removed_desync) ∧
    (∀ (env : ℕ → Engine.SellEnv) (st : Engine.SellExecState) (pos : Engine.Position)
        (remaining : ℕ),
      st.position = some pos →
      (Engine.reconcile_before_sell pos.quantity price (env 0).balance =
          Engine.ReconcileOutcome.removed_dust ∨
        Engine.reconcile_before_sell pos.quantity price (env 0).balance =
          Engine.ReconcileOutcome.removed_desync) →
      Engine.sell_attempts env 0 (remaining + 1) price st = { st with position := none }) := by
  refine ⟨?_, ?_, ?_, ?_⟩
  · intro h0 hlt hmin
    rw [Engine.reconcile_before_sell_pos tracked actual price h0, min_eq_right hlt.le,
      if_neg (not_lt.mpr hmin)]
  · intro h0 hdust
    rw [Engine.reconcile_before_sell_pos tracked actual price h0, if_pos hdust]
  · simp [Engine.reconcile_before_sell]
  · intro env st pos remaining hpos hrec
    rcases hrec with h | h <;> simp [Engine.sell_attempts, hpos, h]

/-- Witness for C2: tracked 10, exchange-reported 7 at price $1 sells 7;
tracked 10 but only 0.5 on exchange at $1 is dust and is removed; a zero
balance is a desynchronization; and in the loop a desync removes the
position without a trade record. -/
theorem claim_C2_reconciliation_witness :
    Engine.reconcile_before_sell 10 1 (some 7) = Engine.ReconcileOutcome.sell_qty 7 ∧
    Engine.reconcile_before_sell 10 1 (some (1/2)) = Engine.ReconcileOutcome.removed_dust ∧
    Engine.reconcile_before_sell 10 1 (some 0) = Engine.ReconcileOutcome.removed_desync ∧
    Engine.sell_attempts (fun _ => ⟨some 0, true, none⟩) 0 1 1
        ⟨some ⟨100, 10⟩, [], 0, []⟩ = ⟨none, [], 0, []⟩ :=
  ⟨(claim_C2_reconciliation 10 7 1).1 (by norm_num) (by norm_num)
      (by norm_num [Engine.MIN_ORDER_VALUE]),
   (claim_C2_reconciliation 10 (1/2) 1).2.1 (by norm_num)
      (by norm_num [Engine.MIN_ORDER_VALUE]),
   (claim_C2_reconciliation 10 7 1).2.2.1,
   (claim_C2_reconciliation 10 7 1).2.2.2 (fun _ => ⟨some 0, true, none⟩)
      ⟨some ⟨100, 10⟩, [], 0, []⟩ ⟨100, 10⟩ 0 rfl
      (Or.inr ((claim_C2_reconciliation 10 7 1).2.2.1))⟩

namespace Engine

/-- Exhaustion of the sell retry loop: when the exchange agrees with the
tracked quantity, the notional clears the minimum, every order submission
fails, and every price refresh fails, the loop performs all attempts with
backoffs `(attempt+1)*3`, emits the critical alert block exactly once, and
leaves the state otherwise untouched. -/
theorem sell_attempts_exhaust (env : ℕ → SellEnv) (pos : Position) (price : ℚ)
    (hq : 0 < pos.quantity) (hmin : MIN_ORDER_VALUE ≤ pos.quantity * price)
    (hfail : ∀ i, (env i).order_ok = false)
    (hbal : ∀ i, (env i).balance = some pos.quantity)
    (hnp : ∀ i, (env i).new_price = none) :
    ∀ (remaining attempt : ℕ) (st : SellExecState), st.position = some pos →
      sell_attempts env attempt (remaining + 1) price st =
        { st with fatal_alerts := st.fatal_alerts + 1,
                  backoffs := st.backoffs ++ (List.range' (attempt + 1) remaining).map (· * 3) } := by
  intro remaining
  induction remaining with
  | zero =>
    intro attempt st hpos
    simp [sell_attempts, hpos, hbal attempt, hfail attempt,
      reconcile_before_sell_self pos.quantity price hq hmin]
  | succ r ih =>
    intro attempt st hpos
    have step : sell_attempts env attempt (r + 1 + 1) price st =
        sell_attempts env (attempt + 1) (r + 1) price
          { st with backoffs := st.backoffs ++ [(attempt + 1) * 3] } := by
      conv_lhs => rw [sell_attempts]
      simp [hpos, hbal attempt, hfail attempt, hnp attempt,
        reconcile_before_sell_self pos.quantity price hq hmin]
    rw [step, ih (attempt + 1) _ (by simpa using hpos)]
    simp [List.range'_succ, List.append_assoc]

end Engine

/-- Claim C3: SELL retry exhaustion escalates and never drops the position —
with `_execute_sell` defaulting to 3 attempts and `_execute_sell_with_retry`
capped at 5, if every submission attempt fails the position stays tracked
(OPEN), no trade record is appended, the critical operator alert block runs
exactly once, the backoffs are 3 seconds times the 1-based attempt index,
and the loop then returns without further recovery. -/
theorem claim_C3_retry_exhaustion (env : ℕ → Engine.SellEnv) (pos : Engine.Position)
    (price : ℚ) (max_retries : ℕ)
    (hq : 0 < pos.quantity) (hmin : Engine.MIN_ORDER_VALUE ≤ pos.quantity * price)
    (hfail : ∀ i, (env i).order_ok = false)
    (hbal : ∀ i, (env i).balance = some pos.quantity)
    (hnp : ∀ i, (env i).new_price = none)
    (hpos : 0 < max_retries) :
    Engine.execute_sell_with_retry env price ⟨some pos, [], 0, []⟩ max_retries =
      ⟨some pos, [], 1, (List.range' 1 (max_retries - 1)).map (· * 3)⟩ ∧
    Engine.execute_sell env price ⟨some pos, [], 0, []⟩ =
      ⟨some pos, [], 1, [3, 6]⟩ := by
  constructor
  · obtain ⟨r, rfl⟩ : ∃ r, max_retries = r + 1 :=
      ⟨max_retries - 1, (Nat.succ_pred_eq_of_pos hpos).symm⟩
    rw [Engine.execute_sell_with_retry,
      Engine.sell_attempts_exhaust env pos price hq hmin hfail hbal hnp r 0 _ rfl]
    simp
  · rw [Engine.execute_sell, Engine.execute_sell_with_retry,
      Engine.sell_attempts_exhaust env pos price hq hmin hfail hbal hnp 2 0 _ rfl]
    simp [List.range'_succ]

/-- Witness for C3: a position of 2 units entered at $100, price $100, the
exchange reporting the same 2 units, and an order endpoint that fails every
time; after 3 attempts (backoffs 3s and 6s) the position is still tracked,
no trade record exists, and the fatal alert ran once. -/
theorem claim_C3_retry_exhaustion_witness :
    Engine.execute_sell_with_retry (fun _ => ⟨some 2, false, none⟩) 100
        ⟨some ⟨100, 2⟩, [], 0, []⟩ 3 = ⟨some ⟨100, 2⟩, [], 1, [3, 6]⟩ ∧
    Engine.execute_sell (fun _ => ⟨some 2, false, none⟩) 100
        ⟨some ⟨100, 2⟩, [], 0, []⟩ = ⟨some ⟨100, 2⟩, [], 1, [3, 6]⟩ := by
  have h := claim_C3_retry_exhaustion (fun _ => ⟨some 2, false, none⟩) ⟨100, 2⟩ 100 3
    (by norm_num) (by norm_num [Engine.MIN_ORDER_VALUE]) (fun _ => rfl) (fun _ => rfl)
    (fun _ => rfl) (by norm_num)
  refine ⟨?_, h.2⟩
  have h1 := h.1
  simpa [List.range'_succ] using h1

namespace Engine

/-- One tick never lowers `highest_price`. -/
theorem update_highest_price_le (highest_price current_price : ℚ) :
    highest_price ≤ update_highest_price highest_price current_price := by
  unfold update_highest_price
  split_ifs with h
  · exact h.le
  · exact le_refl _

/-- `highest_price` never decreases over any sequence of ticks. -/
theorem le_foldl_update_highest (highest_price : ℚ) (ticks : List ℚ) :
    highest_price ≤ List.foldl update_highest_price highest_price ticks := by
  induction ticks generalizing highest_price with
  | nil => simp
  | cons t ts ih =>
    simp only [List.foldl_cons]
    exact le_trans (update_highest_price_le highest_price t) (ih _)

/-- Once the 5% activation threshold is reached, the candidate trailing
stop `highest * 0.97` is strictly above the entry price, so the source's
`trailing_stop_price > entry_price` guard always passes. -/
theorem trailing_stop_above_entry {entry_price highest_price : ℚ}
    (he : 0 < entry_price)
    (hp : 5 ≤ (highest_price - entry_price) / entry_price * 100) :
    entry_price < highest_price * (97/100) := by
  have h1 : (1/20 : ℚ) ≤ (highest_price - entry_price) / entry_price := by linarith
  have h2 : (1/20 : ℚ) * entry_price ≤ highest_price - entry_price :=
    (le_div_iff₀ he).mp h1
  linarith

/-- Once activated, the trailing computation yields exactly
`max (original stop) (highest * 0.97)`. -/
theorem trailing_effective_stop_eq_max {entry_price stop_loss_percent highest_price : ℚ}
    (he : 0 < entry_price)
    (hp : 5 ≤ (highest_price - entry_price) / entry_price * 100) :
    trailing_effective_stop entry_price stop_loss_percent highest_price =
      max (entry_price * (1 - stop_loss_percent / 100)) (highest_price * (97/100)) := by
  simp only [trailing_effective_stop, if_pos hp, if_pos (trailing_stop_above_entry he hp)]

/-- The trailing computation is monotone in `highest_price`. -/
theorem trailing_effective_stop_mono {entry_price stop_loss_percent h1 h2 : ℚ}
    (he : 0 < entry_price) (hh : h1 ≤ h2) :
    trailing_effective_stop entry_price stop_loss_percent h1 ≤
      trailing_effective_stop entry_price stop_loss_percent h2 := by
  by_cases hA : 5 ≤ (h1 - entry_price) / entry_price * 100
  · have hA2 : 5 ≤ (h2 - entry_price) / entry_price * 100 := by
      have hd : (h1 - entry_price) / entry_price ≤ (h2 - entry_price) / entry_price :=
        (div_le_div_iff_of_pos_right he).mpr (by linarith)
      linarith
    rw [trailing_effective_stop_eq_max he hA, trailing_effective_stop_eq_max he hA2]
    exact max_le_max le_rfl (by linarith)
  · have hL : trailing_effective_stop entry_price stop_loss_percent h1 =
        entry_price * (1 - stop_loss_percent / 100) := by
      simp only [trailing_effective_stop, if_neg hA]
    rw [hL]
    by_cases hA2 : 5 ≤ (h2 - entry_price) / entry_price * 100
    · rw [trailing_effective_stop_eq_max he hA2]
      exact le_max_left _ _
    · have hR : trailing_effective_stop entry_price stop_loss_percent h2 =
          entry_price * (1 - stop_loss_percent / 100) := by
        simp only [trailing_effective_stop, if_neg hA2]
      rw [hR]

/-- For a strategy other than `macd_supertrend`, the stop compared in
`_check_positions` is always the plain percentage stop. -/
theorem effective_stop_other_strategy {strategy : String}
    (hs : ¬strategy = "macd_supertrend") (entry_price stop_loss_percent highest_price : ℚ) :
    effective_stop_loss_price strategy entry_price stop_loss_percent highest_price =
      entry_price * (1 - stop_loss_percent / 100) := by
  simp only [effective_stop_loss_price, if_neg hs]

/-- The effective stop is monotone in `highest_price` for every strategy
(constant for non-`macd_supertrend` ones). -/
theorem effective_stop_mono {strategy : String} {entry_price stop_loss_percent h1 h2 : ℚ}
    (he : 0 < entry_price) (hh : h1 ≤ h2) :
    effective_stop_loss_price strategy entry_price stop_loss_percent h1 ≤
      effective_stop_loss_price strategy entry_price stop_loss_percent h2 := by
  by_cases hs : strategy = "macd_supertrend"
  · simp only [effective_stop_loss_price, if_pos hs]
    exact trailing_effective_stop_mono he hh
  · rw [effective_stop_other_strategy hs, effective_stop_other_strategy hs]

end Engine

/-- Counterexample to claim C5 as stated: the whole trailing block of
`_check_positions` is gated on `strategy == 'macd_supertrend'`, so a
position with the default `momentum` strategy never gets a trailing stop.
At entry $100, stop-loss 2% and highest price $110 — a 10% profit, past
the 5% activation — the stop the program compares against stays $98, not
the claimed `max(original_stop, 0.97 × highest) = $106.70`. -/
theorem claim_C5_counterexample :
    (5:ℚ) ≤ (110 - 100) / 100 * 100 ∧
    Engine.effective_stop_loss_price "momentum" 100 2 110 = 98 ∧
    (98:ℚ) ≠ max ((100:ℚ) * (1 - 2 / 100)) (110 * (97/100)) := by
  refine ⟨by norm_num, ?_, ?_⟩
  · have h : Engine.effective_stop_loss_price "momentum" 100 2 110 =
        100 * (1 - 2 / 100) := by
      simp [Engine.effective_stop_loss_price]
    rw [h]; norm_num
  · rw [max_eq_right (by norm_num : (100:ℚ) * (1 - 2 / 100) ≤ 110 * (97/100))]
    norm_num

/-- Claim C5 (amended): `highest_price` is non-decreasing per tick (and
over any tick sequence) and is updated only when the price exceeds it; the
trailing logic — the `highest_price` update included — runs only for
positions whose strategy is `macd_supertrend`: for those, once the profit
of the highest price over entry reaches the 5% activation threshold the
effective stop equals `max (original stop) (highest_price * 0.97)` and is
monotone in `highest_price`, so it is never lowered; for every other
strategy the effective stop is always the plain percentage stop
`entry * (1 - stop_loss_percent / 100)`. -/
theorem claim_C5_monotonic_trailing_stop_amended (strategy : String)
    (entry_price stop_loss_percent highest_price highest_price2 current_price : ℚ)
    (ticks : List ℚ) (he : 0 < entry_price) :
    (highest_price ≤ Engine.update_highest_price highest_price current_price) ∧
    (current_price ≤ highest_price →
      Engine.update_highest_price highest_price current_price = highest_price) ∧
    (highest_price ≤ List.foldl Engine.update_highest_price highest_price ticks) ∧
    (5 ≤ (highest_price - entry_price) / entry_price * 100 →
      Engine.effective_stop_loss_price "macd_supertrend" entry_price stop_loss_percent
          highest_price =
        max (entry_price * (1 - stop_loss_percent / 100)) (highest_price * (97/100))) ∧
    (highest_price ≤ highest_price2 →
      Engine.effective_stop_loss_price strategy entry_price stop_loss_percent
          highest_price ≤
        Engine.effective_stop_loss_price strategy entry_price stop_loss_percent
          highest_price2) ∧
    (¬strategy = "macd_supertrend" →
      Engine.effective_stop_loss_price strategy entry_price stop_loss_percent
          highest_price = entry_price * (1 - stop_loss_percent / 100)) := by
  refine ⟨Engine.update_highest_price_le _ _, ?_, Engine.le_foldl_update_highest _ _,
    fun hp => ?_, fun hh => Engine.effective_stop_mono he hh,
    fun hs => Engine.effective_stop_other_strategy hs _ _ _⟩
  · intro hle
    unfold Engine.update_highest_price
    rw [if_neg (not_lt.mpr hle)]
  · rw [show Engine.effective_stop_loss_price "macd_supertrend" entry_price
        stop_loss_percent highest_price =
          Engine.trailing_effective_stop entry_price stop_loss_percent highest_price from
        by simp [Engine.effective_stop_loss_price]]
    exact Engine.trailing_effective_stop_eq_max he hp

/-- Witness for C5 (amended): entry $100, stop-loss 2%, highest price $106
(6% above entry, past the 5% activation), a tick at $105 that does not
raise the high, a later high of $110, and a `momentum` position whose stop
stays at the plain $98. -/
theorem claim_C5_monotonic_trailing_stop_amended_witness :
    ((106:ℚ) ≤ Engine.update_highest_price 106 105) ∧
    Engine.update_highest_price 106 105 = 106 ∧
    ((106:ℚ) ≤ List.foldl Engine.update_highest_price 106 [101, 99]) ∧
    Engine.effective_stop_loss_price "macd_supertrend" 100 2 106 =
      max ((100:ℚ) * (1 - 2 / 100)) (106 * (97/100)) ∧
    Engine.effective_stop_loss_price "momentum" 100 2 106 ≤
      Engine.effective_stop_loss_price "momentum" 100 2 110 ∧
    Engine.effective_stop_loss_price "momentum" 100 2 106 =
      100 * (1 - 2 / 100) := by
  have h := claim_C5_monotonic_trailing_stop_amended "momentum" 100 2 106 110 105
    [101, 99] (by norm_num)
  exact ⟨h.1, h.2.1 (by norm_num), h.2.2.1, h.2.2.2.1 (by norm_num),
    h.2.2.2.2.1 (by norm_num), h.2.2.2.2.2 (by simp)⟩

/-- Counterexample to claim C9 as stated: in paper mode, a MARKET BUY of
1 unit at $20,000 against a ledger holding only $10,000 is returned with
status `filled`, yet the ledger is left completely unchanged — the USD
balance does not decrease by q×p (the claim requires it to, for every
paper MARKET BUY). -/
theorem claim_C9_counterexample :
    Kraken.place_order true 50 Kraken.Side.BUY Kraken.OrderType.MARKET 1 (some 20000)
        20000 ⟨10000, 0⟩ =
      Kraken.PlaceResult.paper_filled
        ⟨Kraken.Side.BUY, Kraken.OrderType.MARKET, 1, 20000, "filled"⟩ ⟨10000, 0⟩ ∧
    (10000:ℚ) ≠ 10000 - 1 * 20000 := by
  constructor
  · norm_num [Kraken.place_order, Kraken.place_paper_order, Kraken.fill_paper_balance,
      Kraken.resolve_price]
  · norm_num

/-- Claim C9 (amended): `place_order` enforces the minimum-order-value rule
before the paper/live branch, so an order below the minimum is rejected in
both modes; every paper MARKET order is returned with status `filled`; a
paper MARKET BUY moves the ledger by (−q×p USD, +q base) provided the USD
balance covers the cost, and a MARKET SELL the reverse provided the base
balance covers the amount; with insufficient funds the order is still
returned `filled` but the ledger is left unchanged. -/
theorem claim_C9_paper_parity_amended (paper_trading : Bool) (min_order_size : ℚ)
    (side : Kraken.Side) (order_type : Kraken.OrderType) (amount : ℚ)
    (price : Option ℚ) (current_price : ℚ) (l : Kraken.PaperLedger) :
    (amount * Kraken.resolve_price price current_price < min_order_size →
      Kraken.place_order paper_trading min_order_size side order_type amount price
        current_price l = Kraken.PlaceResult.rejected) ∧
    (Kraken.place_paper_order side Kraken.OrderType.MARKET amount
        (Kraken.resolve_price price current_price) l).1.status = "filled" ∧
    (min_order_size ≤ amount * Kraken.resolve_price price current_price →
      Kraken.place_order true min_order_size side Kraken.OrderType.MARKET amount price
          current_price l =
        Kraken.PlaceResult.paper_filled
          (Kraken.place_paper_order side Kraken.OrderType.MARKET amount
            (Kraken.resolve_price price current_price) l).1
          (Kraken.place_paper_order side Kraken.OrderType.MARKET amount
            (Kraken.resolve_price price current_price) l).2) ∧
    (amount * Kraken.resolve_price price current_price ≤ l.usd →
      Kraken.fill_paper_balance Kraken.Side.BUY Kraken.OrderType.MARKET amount
          (Kraken.resolve_price price current_price) l =
        ⟨l.usd - amount * Kraken.resolve_price price current_price, l.base + amount⟩) ∧
    (amount ≤ l.base →
      Kraken.fill_paper_balance Kraken.Side.SELL Kraken.OrderType.MARKET amount
          (Kraken.resolve_price price current_price) l =
        ⟨l.usd + amount * Kraken.resolve_price price current_price, l.base - amount⟩) ∧
    (l.usd < amount * Kraken.resolve_price price current_price →
      Kraken.fill_paper_balance Kraken.Side.BUY Kraken.OrderType.MARKET amount
          (Kraken.resolve_price price current_price) l = l) := by
  refine ⟨?_, ?_, ?_, ?_, ?_, ?_⟩
  · intro h
    simp only [Kraken.place_order, if_pos h]
  · simp [Kraken.place_paper_order]
  · intro h
    simp only [Kraken.place_order, if_neg (not_lt.mpr h), if_pos]
  · intro h
    simp only [Kraken.fill_paper_balance, if_pos h]
    simp
  · intro h
    simp only [Kraken.fill_paper_balance, if_pos h]
    simp
  · intro h
    simp only [Kraken.fill_paper_balance, if_neg (not_le.mpr h)]
    simp

/-- Witness for C9 (amended): a $10 order is rejected against the $50
configured minimum in both paper and live mode; a covered paper BUY and
SELL move the ledger by exactly the trade amounts; and an uncovered BUY
leaves the ledger unchanged. -/
theorem claim_C9_paper_parity_amended_witness :
    Kraken.place_order true 50 Kraken.Side.BUY Kraken.OrderType.MARKET 1 (some 10) 10
        ⟨10000, 0⟩ = Kraken.PlaceResult.rejected ∧
    Kraken.place_order false 50 Kraken.Side.BUY Kraken.OrderType.MARKET 1 (some 10) 10
        ⟨10000, 0⟩ = Kraken.PlaceResult.rejected ∧
    Kraken.place_order true 50 Kraken.Side.SELL Kraken.OrderType.MARKET 2 (some 100) 100
        ⟨10000, 5⟩ =
      Kraken.PlaceResult.paper_filled
        (Kraken.place_paper_order Kraken.Side.SELL Kraken.OrderType.MARKET 2
          (Kraken.resolve_price (some 100) 100) ⟨10000, 5⟩).1
        (Kraken.place_paper_order Kraken.Side.SELL Kraken.OrderType.MARKET 2
          (Kraken.resolve_price (some 100) 100) ⟨10000, 5⟩).2 ∧
    Kraken.fill_paper_balance Kraken.Side.BUY Kraken.OrderType.MARKET 2
        (Kraken.resolve_price (some 100) 100) ⟨10000, 0⟩ =
      ⟨10000 - 2 * Kraken.resolve_price (some 100) 100, 0 + 2⟩ ∧
    Kraken.fill_paper_balance Kraken.Side.SELL Kraken.OrderType.MARKET 2
        (Kraken.resolve_price (some 100) 100) ⟨10000, 5⟩ =
      ⟨10000 + 2 * Kraken.resolve_price (some 100) 100, 5 - 2⟩ ∧
    Kraken.fill_paper_balance Kraken.Side.BUY Kraken.OrderType.MARKET 1
        (Kraken.resolve_price (some 20000) 20000) ⟨10000, 0⟩ = ⟨10000, 0⟩ :=
  ⟨(claim_C9_paper_parity_amended true 50 Kraken.Side.BUY Kraken.OrderType.MARKET 1
      (some 10) 10 ⟨10000, 0⟩).1 (by norm_num [Kraken.resolve_price]),
   (claim_C9_paper_parity_amended false 50 Kraken.Side.BUY Kraken.OrderType.MARKET 1
      (some 10) 10 ⟨10000, 0⟩).1 (by norm_num [Kraken.resolve_price]),
   (claim_C9_paper_parity_amended true 50 Kraken.Side.SELL Kraken.OrderType.MARKET 2
      (some 100) 100 ⟨10000, 5⟩).2.2.1 (by norm_num [Kraken.resolve_price]),
   (claim_C9_paper_parity_amended true 50 Kraken.Side.BUY Kraken.OrderType.MARKET 2
      (some 100) 100 ⟨10000, 0⟩).2.2.2.1 (by norm_num [Kraken.resolve_price]),
   (claim_C9_paper_parity_amended true 50 Kraken.Side.SELL Kraken.OrderType.MARKET 2
      (some 100) 100 ⟨10000, 5⟩).2.2.2.2.1 (by norm_num),
   (claim_C9_paper_parity_amended true 50 Kraken.Side.BUY Kraken.OrderType.MARKET 1
      (some 20000) 20000 ⟨10000, 0⟩).2.2.2.2.2 (by norm_num [Kraken.resolve_price])⟩
